import Mathlib

/-!
# Verification of the TMC 16-Channel Switch Decoder core

A shallow embedding, in Lean 4, of the CV (Configuration Value) store, the
CV command processor, the countdown timer and the debounced button of the
TMC 16-Channel switch decoder firmware (files `core_CvValues.{h,cpp}`,
`core_Functions.cpp`, `core_Timer.cpp`, `core_ProgButton.cpp`).

Modelling conventions:
* The EEPROM (persisted byte store) is a total function `Nat → Nat`; the
  firmware only ever stores byte values, and theorems quantify over all
  stores, which subsumes the byte-valued ones.
* On the AVR32DA48 target (see `Hardware.h`) `unsigned int` is 16 bits,
  `unsigned long` is 32 bits, and the EEPROM is 512 bytes (`E2END = 511`).
  Machine arithmetic is modelled on `Nat` with explicit `% 2^w` at the
  places where the C code can wrap.
* `millis()` is modelled by passing the current time explicitly to each
  operation that reads the clock.
-/

namespace Tmc

/-- Pointwise update of a byte store, modelling `EEPROM.update`
(write-if-changed has the same resulting store as an unconditional write). -/
def upd (f : Nat → Nat) (i v : Nat) : Nat → Nat :=
  fun j => if j = i then v else f j

/-! ## CV names and constants, from `core_CvValues.h` -/

/-- Maximum number of generic CVs initialised by `setDefaults`. -/
def max_cvs : Nat := 63

/-- CV1: decoder address, low order bits. -/
def myAddrL : Nat := 1
/-- CV7: software version. -/
def version : Nat := 7
/-- CV8: vendor ID (0x0D = DIY decoder; writing 0x0D resets the decoder). -/
def VID : Nat := 8
/-- CV9: decoder address, high order bits. -/
def myAddrH : Nat := 9
/-- CV19: command station type. -/
def CmdStation : Nat := 19
/-- CV23: search (decoder LED blinks while set). -/
def Search : Nat := 23
/-- CV25: restart trigger. -/
def Restart : Nat := 25
/-- CV26: DCC signal quality counter. -/
def DccQuality : Nat := 26
/-- CV27: decoder type. -/
def DecType : Nat := 27
/-- CV28: RailCom configuration. -/
def RailCom : Nat := 28
/-- CV29: accessory decoder configuration flags. -/
def Config : Nat := 29
/-- CV30: second vendor ID. -/
def VID_2 : Nat := 30
/-- CV33: output shortcut threshold. -/
def Shortcut : Nat := 33
/-- CV34: print accessory commands to serial. -/
def PrintDetails : Nat := 34

/-- Last EEPROM address: the AVR32DA48 (see `Hardware.h`) has a 512-byte
EEPROM, so the avr-libc macro `E2END` is 511. -/
def E2END : Nat := 511

/-! ## CvValues, from `core_CvValues.cpp` -/

/-- `CvValues::init(decoderType, softwareVersion)`: builds the `defaults`
array from the previous array contents — indices `1..max_cvs` are first
zeroed, index 0 gets the magic marker, then the named CVs get their
factory values. -/
def cvInit (old : Nat → Nat) (decoderType softwareVersion : Nat) : Nat → Nat :=
  upd (upd (upd (upd (upd (upd (upd (upd (upd (upd (upd (upd (upd
    (fun i => if 1 ≤ i ∧ i ≤ max_cvs then 0 else old i)
    0 0b01010101)
    DecType decoderType)
    version softwareVersion)
    VID 0x0D)
    VID_2 0x0D)
    myAddrL 0x01)
    myAddrH 0x80)
    Config 0b10000000)
    RailCom 0)
    CmdStation 1)
    DccQuality 0)
    Shortcut 64)
    PrintDetails 0

/-- `CvValues::notInitialised()`: the persisted marker byte differs from
the magic constant `0b01010101`. -/
def notInitialised (ee : Nat → Nat) : Bool :=
  ee 0 != 0b01010101

/-- `CvValues::addressNotSet()`: the stored high address byte (CV9) equals
`0x80` exactly. -/
def addressNotSet (ee : Nat → Nat) : Bool :=
  ee myAddrH == 0x80

/-- `CvValues::setDefaults()`: copies `defaults[0..max_cvs]` into the
EEPROM, leaving higher addresses untouched. -/
def setDefaultsFn (defaults ee : Nat → Nat) : Nat → Nat :=
  fun i => if i ≤ max_cvs then defaults i else ee i

/-- `CvValues::storedAddress()`. On the AVR target `unsigned int` and `int`
are 16 bits wide; in the decoder-addressing branch the C expression
`(cv9 << 6) + cv1 - 1` can underflow to 65535 (when `cv9 = cv1 = 0`), which
the `% 65536` below reproduces.  All other branches stay below 2^16. -/
def storedAddress (ee : Nat → Nat) : Nat :=
  let cv29 := ee Config
  let accDecoder := cv29.testBit 7
  let outputAddr := cv29.testBit 6
  let longLocoAddr := cv29.testBit 5
  if accDecoder then
    let address :=
      if outputAddr then
        let cv1 := ee myAddrL
        let cv9 := ee myAddrH % 8
        cv9 * 256 + cv1
      else
        let cv1 := ee myAddrL % 64
        let cv9 := ee myAddrH % 8
        (cv9 * 64 + cv1 + 65535) % 65536
    if 128 ≤ ee myAddrH then 65535 else address
  else
    let address :=
      if longLocoAddr then
        let cv17 := ee 17 % 64
        let cv18 := ee 18
        cv17 * 256 + cv18
      else
        ee myAddrL % 128
    if address = 0 then 3 else address

/-! ## Address capture, from `ProgButton::addressProgramming`
(`core_Functions.cpp`) -/

/-- The output-addressing branch of `ProgButton::addressProgramming`:
stores `outputAddress & 0xFF` into CV1 and `(outputAddress >> 8) & 0x07`
into CV9. -/
def encodeOutputAddress (ee : Nat → Nat) (outputAddress : Nat) : Nat → Nat :=
  let my_cv1 := outputAddress % 256
  let my_cv9 := (outputAddress / 256) % 8
  upd (upd ee myAddrL my_cv1) myAddrH my_cv9

/-- The decoder-addressing branch of `ProgButton::addressProgramming`:
computes the 16-bit `tempAddress = decoderAddress + 1`, then stores
`tempAddress & 0x3F` into CV1 and `(tempAddress >> 6) & 0x07` into CV9. -/
def encodeDecoderAddress (ee : Nat → Nat) (decoderAddress : Nat) : Nat → Nat :=
  let tempAddress := (decoderAddress + 1) % 65536
  let my_cv1 := tempAddress % 64
  let my_cv9 := (tempAddress / 64) % 8
  upd (upd ee myAddrL my_cv1) myAddrH my_cv9

end Tmc

namespace Tmc

/-! ## Concrete stores used as witnesses -/

/-- A store configured as an accessory decoder with decoder addressing
(CV29 = 0b10000000), all other cells zero. -/
def eeAccDec : Nat → Nat := fun i => if i = Config then 0b10000000 else 0

/-- A store configured as an accessory decoder with output addressing
(CV29 = 0b11000000), all other cells zero. -/
def eeAccOut : Nat → Nat := fun i => if i = Config then 0b11000000 else 0

/-! ## Claims about the CV store -/

/-- Claim C1 (counterexample): with 129 stored in the high address CV its
top bit is set, yet `addressNotSet` returns false — the code compares for
equality with 0x80, not for the top bit. -/
theorem addressNotSet_topbit_cex :
    addressNotSet (upd (fun _ => 0) myAddrH 129) = false ∧
    Nat.testBit 129 7 = true ∧ 128 ≤ 129 := by
  decide

/-- Claim C1 (amended): for every stored value of the high address CV,
`addressNotSet()` returns true if and only if that value equals 0x80
exactly. -/
theorem addressNotSet_eq_sentinel_iff (ee : Nat → Nat) :
    addressNotSet ee = true ↔ ee myAddrH = 128 := by
  simp [addressNotSet]

/-- Claim C4: whenever the store is configured as an accessory decoder
(Config bit 7 set) and the high address CV has its sentinel bit set
(value ≥ 128), `storedAddress()` returns the distinguished unassigned
value 65535. -/
theorem storedAddress_unassigned (ee : Nat → Nat)
    (hacc : (ee Config).testBit 7 = true) (hs : 128 ≤ ee myAddrH) :
    storedAddress ee = 65535 := by
  simp [storedAddress, hacc, hs]

/-- Witness for C4: a concrete accessory-decoder store with CV9 = 0x80. -/
theorem storedAddress_unassigned_witness :
    storedAddress (upd eeAccDec myAddrH 0x80) = 65535 :=
  storedAddress_unassigned (upd eeAccDec myAddrH 0x80) (by decide) (by decide)

/-- Claim C5: `notInitialised()` is true iff the persisted marker byte
differs from the magic constant `0b01010101`, and after `setDefaults()`
(applied to a defaults array built by `init`) it is false. -/
theorem notInitialised_iff_and_setDefaults (ee defaults0 : Nat → Nat) (dt sv : Nat) :
    (notInitialised ee = true ↔ ee 0 ≠ 0b01010101) ∧
    notInitialised (setDefaultsFn (cvInit defaults0 dt sv) ee) = false := by
  constructor
  · simp [notInitialised]
  · simp [notInitialised, setDefaultsFn, cvInit, upd, max_cvs, PrintDetails,
      Shortcut, DccQuality, CmdStation, RailCom, Config, myAddrH, myAddrL,
      VID_2, VID, version, DecType]

/-- Claim C2 (counterexample): for decoder-addressing value 511 the
capture-loop inverse stores 0 into both address CVs, and `storedAddress()`
then yields 65535, not 511. -/
theorem storedAddress_roundTrip_cex :
    (eeAccDec Config).testBit 7 = true ∧
    (eeAccDec Config).testBit 6 = false ∧
    storedAddress (encodeDecoderAddress eeAccDec 511) = 65535 ∧
    storedAddress (encodeDecoderAddress eeAccDec 511) ≠ 511 := by
  decide

/-- Claim C2 (amended): on an accessory-decoder store, encoding a
decoder-addressing value `a ≤ 510` with the capture-loop inverse and then
deriving the address yields `a` again; likewise for every output-addressing
value in 1..2047. -/
theorem storedAddress_roundTrip (ee : Nat → Nat) (a : Nat)
    (hacc : (ee Config).testBit 7 = true) :
    ((ee Config).testBit 6 = false → a ≤ 510 →
      storedAddress (encodeDecoderAddress ee a) = a) ∧
    ((ee Config).testBit 6 = true → 1 ≤ a → a ≤ 2047 →
      storedAddress (encodeOutputAddress ee a) = a) := by
  constructor
  · intro hout hle
    simp only [Config] at hacc hout
    simp only [storedAddress, encodeDecoderAddress, upd, myAddrL, myAddrH, Config]
    norm_num [hacc, hout]
    split <;> omega
  · intro hout h1 hle
    simp only [Config] at hacc hout
    simp only [storedAddress, encodeOutputAddress, upd, myAddrL, myAddrH, Config]
    norm_num [hacc, hout]
    split <;> omega

/-- Witness for C2 (amended), at decoder address 300 and output address
1500. -/
theorem storedAddress_roundTrip_witness :
    storedAddress (encodeDecoderAddress eeAccDec 300) = 300 ∧
    storedAddress (encodeOutputAddress eeAccOut 1500) = 1500 :=
  ⟨(storedAddress_roundTrip eeAccDec 300 (by decide)).1 (by decide) (by decide),
   (storedAddress_roundTrip eeAccOut 1500 (by decide)).2 (by decide) (by decide) (by decide)⟩

end Tmc

namespace Tmc

/-! ## CV command processing, from `CvProgramming::processMessage`
(`core_Functions.cpp`) -/

/-- The command types under which `processMessage` is invoked
(`Dcc::SmCmd` for Service Mode, `Dcc::MyPomCmd` for Programming on the
Main). -/
inductive CmdType where
  | SmCmd
  | MyPomCmd
deriving DecidableEq

/-- The three CV-access operations of `CvAccess::operation`. -/
inductive CvOperation where
  | verifyByte
  | writeByte
  | bitManipulation
deriving DecidableEq

/-- One parsed CV-access command (the fields of `cvCmd` that
`processMessage` reads): CV number, data byte, operation, and — for bit
manipulation — whether it is a write, plus the bit position and value. -/
structure CvMessage where
  number : Nat
  value : Nat
  writecmd : Bool
  bitPos : Nat
  bitVal : Bool
  operation : CvOperation

/-- Modelled from the spec: `CvAccess::writeBit` belongs to the external
bus-receiver library (the `cvCmd` object), whose source is not part of
this repository.  Per the spec, a bit-manipulation write "applies a
single-bit set/clear to the current stored byte". -/
def writeBitOp (bitPos : Nat) (bitVal : Bool) (old : Nat) : Nat :=
  if bitVal then old ||| (1 <<< bitPos) else old &&& (255 ^^^ (1 <<< bitPos))

/-- Modelled from the spec: `CvAccess::verifyBit` belongs to the external
bus-receiver library.  Per the spec, a bit-manipulation verify "checks
whether the specified bit already matches the requested polarity". -/
def verifyBitOp (bitPos : Nat) (bitVal : Bool) (old : Nat) : Bool :=
  (Nat.testBit old bitPos) == bitVal

/-- The observable side effects `processMessage` can perform, in program
order: an EEPROM write, a Service-Mode acknowledge (`dcc.sendAck`), a
factory reset (`cvValues.setDefaults`), a reboot (`processor.reboot`), the
LED actions, and the update of the private `LedShouldFlash` flag. -/
inductive Event where
  | write (number value : Nat)
  | sendAck
  | resetDefaults
  | reboot
  | ledFlashFast
  | ledTurnOff
  | setLedShouldFlash (value : Bool)
deriving DecidableEq

/-- `CvProgramming::processMessage`, as the list of side effects it
performs, in order, on a given EEPROM state. -/
def processMessage (cmdType : CmdType) (msg : CvMessage) (ee : Nat → Nat) :
    List Event :=
  let RecCvNumber := msg.number
  let RecCvData := msg.value
  let CurrentEEPROMValue := ee RecCvNumber
  let SM := cmdType = CmdType.SmCmd
  if RecCvNumber ≤ E2END then
    match msg.operation with
    | CvOperation.verifyByte =>
      if SM then
        if CurrentEEPROMValue = RecCvData then [Event.sendAck] else []
      else []
    | CvOperation.writeByte =>
      if RecCvNumber = version then []
      else if RecCvNumber = VID then
        if RecCvData = 0x0D then
          [Event.resetDefaults] ++ (if SM then [Event.sendAck] else []) ++
            [Event.reboot]
        else []
      else if RecCvNumber = Restart then
        if RecCvData ≠ 0 then [Event.reboot] else []
      else if RecCvNumber = Search then
        if RecCvData ≠ 0 then [Event.setLedShouldFlash true, Event.ledFlashFast]
        else [Event.setLedShouldFlash false, Event.ledTurnOff]
      else
        [Event.write RecCvNumber RecCvData] ++ (if SM then [Event.sendAck] else [])
    | CvOperation.bitManipulation =>
      if msg.writecmd then
        [Event.write RecCvNumber (writeBitOp msg.bitPos msg.bitVal CurrentEEPROMValue)] ++
          (if SM then [Event.sendAck] else [])
      else
        if verifyBitOp msg.bitPos msg.bitVal CurrentEEPROMValue then
          (if SM then [Event.sendAck] else [])
        else []
  else []

/-- The effect of one event on the EEPROM state (`defaults` is the RAM
defaults array consulted by a factory reset). -/
def applyEvent (defaults : Nat → Nat) (ee : Nat → Nat) : Event → (Nat → Nat)
  | Event.write n v => upd ee n v
  | Event.resetDefaults => setDefaultsFn defaults ee
  | _ => ee

/-- The EEPROM state after a list of events. -/
def applyEvents (defaults ee : Nat → Nat) (evs : List Event) : Nat → Nat :=
  evs.foldl (applyEvent defaults) ee

end Tmc

namespace Tmc

/-- A concrete WriteByte command to CV 64 with value 5. -/
def msgWrite64 : CvMessage :=
  { number := 64, value := 5, writecmd := false, bitPos := 0, bitVal := false,
    operation := CvOperation.writeByte }

/-- Claim C3 (counterexample): CV number 64 lies outside the CV store's
index range `0..max_cvs = 63`, yet a Service-Mode WriteByte to it is
processed — the EEPROM byte 64 is written and an acknowledge is sent —
because the code gates on the last EEPROM address `E2END`, not on
`max_cvs`. -/
theorem processMessage_range_cex :
    max_cvs < msgWrite64.number ∧
    processMessage CmdType.SmCmd msgWrite64 (fun _ => 0) =
      [Event.write 64 5, Event.sendAck] ∧
    applyEvents (fun _ => 0) (fun _ => 0)
      (processMessage CmdType.SmCmd msgWrite64 (fun _ => 0)) 64 = 5 := by
  decide

/-- Claim C3 (amended): a CV-access command whose `cvNumber` exceeds the
last EEPROM address (`E2END = 511`) is silently dropped — no write, no
acknowledge, no reboot and no LED change — in Service Mode as well as
Programming-on-Main, and for every operation. -/
theorem processMessage_outOfRange (cmdType : CmdType) (msg : CvMessage)
    (ee : Nat → Nat) (h : E2END < msg.number) :
    processMessage cmdType msg ee = [] := by
  have hn : ¬ (msg.number ≤ E2END) := by omega
  simp [processMessage, hn]

/-- Witness for C3 (amended): CV number 512 with a Service-Mode WriteByte. -/
theorem processMessage_outOfRange_witness :
    processMessage CmdType.SmCmd
      { number := 512, value := 5, writecmd := false, bitPos := 0,
        bitVal := false, operation := CvOperation.writeByte }
      (fun _ => 0) = [] :=
  processMessage_outOfRange CmdType.SmCmd _ (fun _ => 0) (by decide)

/-- Claim C6: a Service-Mode WriteByte to the vendor-ID CV (CV8) with
value 0x0D performs, for every prior store state, exactly a factory reset,
then an acknowledge, then a reboot — in that order — and the resulting
EEPROM holds the defaults at every CV index. -/
theorem processMessage_vidReset (msg : CvMessage) (ee defaults : Nat → Nat)
    (hop : msg.operation = CvOperation.writeByte)
    (hn : msg.number = VID) (hv : msg.value = 0x0D) :
    processMessage CmdType.SmCmd msg ee =
      [Event.resetDefaults, Event.sendAck, Event.reboot] ∧
    (∀ i, i ≤ max_cvs →
      applyEvents defaults ee (processMessage CmdType.SmCmd msg ee) i =
        defaults i) := by
  have hlist : processMessage CmdType.SmCmd msg ee =
      [Event.resetDefaults, Event.sendAck, Event.reboot] := by
    simp [processMessage, hop, hn, hv, VID, version, E2END]
  refine ⟨hlist, fun i hi => ?_⟩
  rw [hlist]
  simp [applyEvents, applyEvent, setDefaultsFn, hi]

/-- Witness for C6: the concrete reset command on a store previously
holding 7 everywhere, with defaults holding 3 everywhere. -/
theorem processMessage_vidReset_witness :
    processMessage CmdType.SmCmd
      { number := 8, value := 0x0D, writecmd := false, bitPos := 0,
        bitVal := false, operation := CvOperation.writeByte }
      (fun _ => 7) = [Event.resetDefaults, Event.sendAck, Event.reboot] ∧
    applyEvents (fun _ => 3) (fun _ => 7)
      (processMessage CmdType.SmCmd
        { number := 8, value := 0x0D, writecmd := false, bitPos := 0,
          bitVal := false, operation := CvOperation.writeByte }
        (fun _ => 7)) 29 = 3 :=
  ⟨(processMessage_vidReset _ (fun _ => 7) (fun _ => 3) rfl rfl rfl).1,
   (processMessage_vidReset _ (fun _ => 7) (fun _ => 3) rfl rfl rfl).2 29 (by decide)⟩

/-- Claim C9: a BitManipulation write to any in-range CV number writes the
manipulated byte back to the store in Programming-on-Main mode as well as
Service Mode (only the acknowledge is Service-Mode-gated), it never
reboots or touches the LED, and — since the CV number is arbitrary,
including CV7, CV8, CV23 and CV25 — it bypasses all WriteByte special
cases. -/
theorem processMessage_bitWrite (cmdType : CmdType) (msg : CvMessage)
    (ee defaults : Nat → Nat)
    (hop : msg.operation = CvOperation.bitManipulation)
    (hw : msg.writecmd = true) (hn : msg.number ≤ E2END) :
    processMessage cmdType msg ee =
      Event.write msg.number (writeBitOp msg.bitPos msg.bitVal (ee msg.number)) ::
        (if cmdType = CmdType.SmCmd then [Event.sendAck] else []) ∧
    applyEvents defaults ee (processMessage cmdType msg ee) msg.number =
      writeBitOp msg.bitPos msg.bitVal (ee msg.number) ∧
    Event.reboot ∉ processMessage cmdType msg ee ∧
    Event.resetDefaults ∉ processMessage cmdType msg ee ∧
    Event.ledFlashFast ∉ processMessage cmdType msg ee ∧
    Event.ledTurnOff ∉ processMessage cmdType msg ee := by
  have hlist : processMessage cmdType msg ee =
      Event.write msg.number (writeBitOp msg.bitPos msg.bitVal (ee msg.number)) ::
        (if cmdType = CmdType.SmCmd then [Event.sendAck] else []) := by
    simp [processMessage, hop, hw, hn]
  refine ⟨hlist, ?_, ?_, ?_, ?_, ?_⟩ <;> rw [hlist] <;>
    cases cmdType <;> simp [applyEvents, applyEvent, upd]

/-- Witness for C9: a Programming-on-Main bit-set on bit 0 of the
vendor-ID CV (CV8): the byte is written, no acknowledge, no reset, no
reboot. -/
theorem processMessage_bitWrite_witness :
    processMessage CmdType.MyPomCmd
      { number := 8, value := 0, writecmd := true, bitPos := 1,
        bitVal := true, operation := CvOperation.bitManipulation }
      (fun _ => 0) = [Event.write 8 2] ∧
    applyEvents (fun _ => 3) (fun _ => 0)
      (processMessage CmdType.MyPomCmd
        { number := 8, value := 0, writecmd := true, bitPos := 1,
          bitVal := true, operation := CvOperation.bitManipulation }
        (fun _ => 0)) 8 = 2 := by
  have h := processMessage_bitWrite CmdType.MyPomCmd
    { number := 8, value := 0, writecmd := true, bitPos := 1,
      bitVal := true, operation := CvOperation.bitManipulation }
    (fun _ => 0) (fun _ => 3) rfl rfl (by decide)
  refine ⟨?_, ?_⟩
  · rw [h.1]; decide
  · have h2 := h.2.1
    simpa using h2

end Tmc

namespace Tmc

/-! ## Countdown timer, from `core_Timer.cpp` -/

/-- 2^32, the modulus of `unsigned long` arithmetic on the AVR target. -/
def M32 : Nat := 4294967296

/-- 32-bit unsigned subtraction `a - b`, as computed by
`millis() - startTime` on `unsigned long` values. -/
def sub32 (a b : Nat) : Nat :=
  (a % M32 + (M32 - b % M32)) % M32

/-- The state of a `DccTimer`: the public `runTime` and the private
`notExpired` flag and `startTime`. -/
structure DccTimer where
  runTime : Nat
  notExpired : Bool
  startTime : Nat
deriving DecidableEq

/-- `DccTimer::setTime(value)` called when `millis()` returns `now`:
stores the duration and arms the timer only if the duration is positive. -/
def DccTimer.setTime (s : DccTimer) (value now : Nat) : DccTimer :=
  if 0 < value then
    { runTime := value, notExpired := true, startTime := now }
  else
    { runTime := value, notExpired := false, startTime := s.startTime }

/-- `DccTimer::expired()` called when `millis()` returns `now`: returns
true only on the first call after expiry, clearing the `notExpired` flag;
the second component is the updated timer state. -/
def DccTimer.expired (s : DccTimer) (now : Nat) : Bool × DccTimer :=
  if s.notExpired then
    if s.runTime ≤ sub32 now s.startTime then
      (true, { s with notExpired := false })
    else (false, s)
  else (false, s)

/-- `DccTimer::start()` called when `millis()` returns `now`: re-arms the
timer unconditionally, keeping the stored duration. -/
def DccTimer.start (s : DccTimer) (now : Nat) : DccTimer :=
  { s with startTime := now, notExpired := true }

/-- `DccTimer::restart()`: defined as a call to `start()`. -/
def DccTimer.restart (s : DccTimer) (now : Nat) : DccTimer :=
  DccTimer.start s now

/-- `DccTimer::stop()`: clears the `notExpired` flag. -/
def DccTimer.stop (s : DccTimer) : DccTimer :=
  { s with notExpired := false }

/-- The list of results of successive `expired()` calls at the given
times, threading the timer state through the calls. -/
def expiredTrace (s : DccTimer) : List Nat → List Bool
  | [] => []
  | t :: ts =>
    let r := s.expired t
    r.1 :: expiredTrace r.2 ts

/-- Marks the first element satisfying `p` with `true` and every other
element with `false` — the pattern of results the spec demands of
`expired()`. -/
def firstTrueMark (p : Nat → Bool) : List Nat → List Bool
  | [] => []
  | t :: ts =>
    if p t then true :: ts.map (fun _ => false)
    else false :: firstTrueMark p ts

theorem sub32_eq_sub (a b : Nat) (hba : b ≤ a)
    (hd : a - b < M32) : sub32 a b = a - b := by
  simp only [sub32, M32] at *
  omega

theorem expiredTrace_disarmed (s : DccTimer) (ts : List Nat)
    (h : s.notExpired = false) :
    expiredTrace s ts = ts.map (fun _ => false) := by
  induction ts with
  | nil => rfl
  | cons t ts ih =>
    simp only [expiredTrace, DccTimer.expired, h]
    simpa using ih

/-- Claim C7: from any armed timer state (set by `setTime` with positive
duration, `start`, or `restart`, all of which set `notExpired`), a run of
`expired()` calls at wrap-free times returns true exactly on the first
call whose elapsed time reaches the duration and false on every other
call; after `stop()` every call returns false. -/
theorem expired_fires_once (s : DccTimer) (ts : List Nat)
    (harm : s.notExpired = true)
    (hts : ∀ t ∈ ts, s.startTime ≤ t ∧ t - s.startTime < M32) :
    expiredTrace s ts =
      firstTrueMark (fun t => s.runTime ≤ t - s.startTime) ts ∧
    expiredTrace (DccTimer.stop s) ts = ts.map (fun _ => false) := by
  refine ⟨?_, expiredTrace_disarmed _ _ rfl⟩
  induction ts with
  | nil => rfl
  | cons t ts ih =>
    have ht := hts t (by simp)
    have hsub : sub32 t s.startTime = t - s.startTime :=
      sub32_eq_sub t s.startTime ht.1 ht.2
    simp only [expiredTrace, DccTimer.expired, harm, if_true, hsub,
      firstTrueMark]
    by_cases hexp : s.runTime ≤ t - s.startTime
    · simp only [hexp, decide_eq_true_eq, if_pos]
      simpa using expiredTrace_disarmed { s with notExpired := false } ts rfl
    · simp [hexp]
      exact ih (fun u hu => hts u (by simp [hu]))

/-- Witness for C7: a timer armed at time 50 with duration 100, polled at
times 60, 149, 150 and 200, fires exactly at the third poll; stopped, it
never fires. -/
theorem expired_fires_once_witness :
    expiredTrace ⟨100, true, 50⟩ [60, 149, 150, 200] =
      firstTrueMark (fun t => 100 ≤ t - 50) [60, 149, 150, 200] ∧
    expiredTrace (DccTimer.stop ⟨100, true, 50⟩) [60, 149, 150, 200] =
      [false, false, false, false] := by
  have h := expired_fires_once ⟨100, true, 50⟩ [60, 149, 150, 200]
    rfl (by decide)
  simpa using h

/-- Claim C10: after `setTime(0)` the timer is disarmed, but a subsequent
`start()` (or the identical `restart()`) arms it unconditionally with the
stored duration 0, so the very next `expired()` call returns true and the
one after that returns false; `start()` arms every state, whatever the
stored duration. -/
theorem start_after_setTime_zero (s : DccTimer) (now t u v : Nat) :
    (s.setTime 0 now).notExpired = false ∧
    ((s.setTime 0 now).start t).notExpired = true ∧
    ((s.setTime 0 now).start t).runTime = 0 ∧
    (((s.setTime 0 now).start t).expired u).1 = true ∧
    (((((s.setTime 0 now).start t).expired u).2).expired v).1 = false ∧
    (∀ s2 : DccTimer, (DccTimer.start s2 t).notExpired = true ∧
      DccTimer.restart s2 t = DccTimer.start s2 t) := by
  refine ⟨rfl, rfl, rfl, ?_, ?_, fun s2 => ⟨rfl, rfl⟩⟩ <;>
    simp [DccTimer.setTime, DccTimer.start, DccTimer.expired]

end Tmc

namespace Tmc

/-! ## Debounced button, from `core_ProgButton.cpp` -/

/-- The logic state of a `DccButton`.  The hardware fields (`m_pin`,
`m_puEnable`, the port register and bitmask) only determine where the raw
sample comes from; here the raw sample is an explicit argument of
`read`. -/
structure DccButton where
  m_dbTime : Nat
  m_invert : Bool
  m_state : Bool
  m_lastState : Bool
  m_changed : Bool
  m_time : Nat
  m_lastChange : Nat
deriving DecidableEq

/-- `DccButton::read()` called when `millis()` returns `ms` and the port
sample is `rawPin`: applies the invert option, accepts the sample only if
the debounce interval has elapsed since the last accepted change, and
returns the (possibly updated) debounced state together with the new
button state. -/
def DccButton.read (b : DccButton) (ms : Nat) (rawPin : Bool) :
    Bool × DccButton :=
  let pinVal := if b.m_invert then !rawPin else rawPin
  if sub32 ms b.m_lastChange < b.m_dbTime then
    let b2 := { b with m_changed := false, m_time := ms }
    (b2.m_state, b2)
  else
    let newChanged := pinVal != b.m_state
    let b2 := { b with
      m_lastState := b.m_state
      m_state := pinVal
      m_changed := newChanged
      m_lastChange := if newChanged then ms else b.m_lastChange
      m_time := ms }
    (b2.m_state, b2)

/-- `DccButton::wasPressed()`: pressed at the last read, and that read
accepted a transition. -/
def DccButton.wasPressed (b : DccButton) : Bool :=
  b.m_state && b.m_changed

/-- Claim C8: (i) a sample arriving less than the debounce time after the
last accepted transition is rejected — the state, and in particular the
last-change timestamp, are left unchanged and no transition is reported;
(ii) whenever the last-change timestamp does move, at least the debounce
time had elapsed since the previously accepted transition; (iii)
`wasPressed()` holds on exactly the single `read()` that accepted the
press edge: the read that accepts a press edge (debounce time elapsed,
sample pressed after invert, previous state released) reports it as true,
and after any further `read()`, whatever its time and sample, it is false
again. -/
theorem read_debounce (b : DccButton) (ms : Nat) (rawPin : Bool) :
    (sub32 ms b.m_lastChange < b.m_dbTime →
      (b.read ms rawPin).2.m_lastChange = b.m_lastChange ∧
      (b.read ms rawPin).2.m_changed = false ∧
      (b.read ms rawPin).2.m_state = b.m_state) ∧
    ((b.read ms rawPin).2.m_lastChange ≠ b.m_lastChange →
      b.m_dbTime ≤ sub32 ms b.m_lastChange) ∧
    (b.m_dbTime ≤ sub32 ms b.m_lastChange →
      (if b.m_invert then !rawPin else rawPin) = true →
      b.m_state = false →
      ((b.read ms rawPin).2).wasPressed = true) ∧
    (b.wasPressed = true →
      ((b.read ms rawPin).2).wasPressed = false) := by
  refine ⟨fun hrej => ?_, fun hacc => ?_, fun hdb hpin hrel => ?_, fun hwp => ?_⟩
  · simp [DccButton.read, hrej]
  · by_cases hdb : sub32 ms b.m_lastChange < b.m_dbTime
    · simp [DccButton.read, hdb] at hacc
    · omega
  · have hw : ¬ (sub32 ms b.m_lastChange < b.m_dbTime) := by omega
    simp [DccButton.read, DccButton.wasPressed, hw, hpin, hrel]
  · have hs : b.m_state = true := by
      cases hbs : b.m_state
      · rw [DccButton.wasPressed, hbs] at hwp; simp at hwp
      · rfl
    simp only [DccButton.read, DccButton.wasPressed]
    split
    · simp
    · simp only [hs]
      cases rawPin <;> cases b.m_invert <;> simp

/-- Witness for C8: a released button (25 ms debounce, last change at
time 0) sampled pressed at time 30 reports the accepted press edge with
`wasPressed` true; a button pressed-and-accepted at time 100 whose
bouncing release sample at time 110 is rejected keeps its timestamp and
state, and `wasPressed` is false after that second read. -/
theorem read_debounce_witness :
    DccButton.wasPressed
      (DccButton.read ⟨25, false, false, false, false, 0, 0⟩ 30 true).2 = true ∧
    (DccButton.read ⟨25, false, true, false, true, 100, 100⟩ 110 false).2.m_lastChange = 100 ∧
    (DccButton.read ⟨25, false, true, false, true, 100, 100⟩ 110 false).2.m_state = true ∧
    DccButton.wasPressed
      (DccButton.read ⟨25, false, true, false, true, 100, 100⟩ 110 false).2 = false := by
  have h0 := read_debounce ⟨25, false, false, false, false, 0, 0⟩ 30 true
  have h := read_debounce ⟨25, false, true, false, true, 100, 100⟩ 110 false
  exact ⟨h0.2.2.1 (by decide) (by decide) rfl,
    (h.1 (by decide)).1, (h.1 (by decide)).2.2, h.2.2.2 rfl⟩

end Tmc
